import Mathlib

/-!
Shallow embedding of the supply-chain backend
(`src/supply_chain_backend/src/lib.rs`): Clients, Suppliers and Orders kept
in three keyed stores plus one shared id counter.  Stores are modelled as
association lists with replace-on-insert semantics, matching the keyed map
behaviour of the stable BTree maps in the source.  Machine `u64` values are
modelled as `Nat` (no operation in scope overflows: the counter only ever
increments by one).  A Rust panic / canister trap is modelled as `none` in an
`Option`-valued operation; operations that cannot trap return plain pairs.
Timestamps (`time()`) are passed in explicitly as a `now : Nat` argument.
-/

namespace SupplyChain

/-- A client record, mirroring `struct Client` in the source. -/
structure Client where
  id : Nat
  name : String
  email : String
  phone : String
  order_ids : List Nat
  created_at : Nat
  updated_at : Option Nat
deriving Repr, DecidableEq

/-- A supplier record, mirroring `struct Supplier` in the source
(`prefered_items` keeps the source's spelling). -/
structure Supplier where
  id : Nat
  name : String
  email : String
  phone : String
  prefered_items : List String
  order_ids : List Nat
  created_at : Nat
  updated_at : Option Nat
deriving Repr, DecidableEq

/-- An order record, mirroring `struct Order`.  The Rust
`HashMap<String, u64>` of products is modelled as an association list. -/
structure Order where
  id : Nat
  title : String
  client_id : Nat
  supplier_id : Option Nat
  item_types : List String
  products : List (String × Nat)
  is_complete : Bool
  created_at : Nat
  updated_at : Option Nat
deriving Repr, DecidableEq

/-- The error enum of the source. -/
inductive Error where
  | NotFound (msg : String)
  | InvalidPayload (msg : String)
  | AlreadyCompleted (msg : String)
deriving Repr, DecidableEq

/-- Payload for `add_client`, mirroring `struct ClientPayload`. -/
structure ClientPayload where
  name : String
  email : String
  phone : String
deriving Repr, DecidableEq

/-- Payload for `add_supplier`, mirroring `struct SupplierPayload`. -/
structure SupplierPayload where
  name : String
  email : String
  phone : String
  prefered_items : List String
deriving Repr, DecidableEq

/-- Payload for `add_order` and `update_order`, mirroring
`struct OrderPayload` (note the source's field name `items_types`). -/
structure OrderPayload where
  title : String
  client_id : Nat
  supplier_id : Nat
  products : List (String × Nat)
  items_types : List String
  is_complete : Bool
deriving Repr, DecidableEq

/-- Payload for `add_order_supplier`. -/
structure AddOrderSupplierPayload where
  order_id : Nat
  supplier_id : Nat
deriving Repr, DecidableEq

/-- The `validator` derive on `ClientPayload`: name at least 3 characters,
phone between 7 and 15 characters. -/
def ClientPayload.validate (p : ClientPayload) : Bool :=
  decide (3 ≤ p.name.length) && decide (7 ≤ p.phone.length) &&
    decide (p.phone.length ≤ 15)

/-- The `validator` derive on `SupplierPayload`: same bounds as for clients. -/
def SupplierPayload.validate (p : SupplierPayload) : Bool :=
  decide (3 ≤ p.name.length) && decide (7 ≤ p.phone.length) &&
    decide (p.phone.length ≤ 15)

/-- The `validator` derive on `OrderPayload`: title at least 1 character. -/
def OrderPayload.validate (p : OrderPayload) : Bool :=
  decide (1 ≤ p.title.length)

/-- Keyed-store lookup (`StableBTreeMap::get`). -/
def storeGet {α : Type} (m : List (Nat × α)) (k : Nat) : Option α :=
  match m with
  | [] => none
  | (k', v) :: rest => if k' = k then some v else storeGet rest k

/-- Remove a key from a keyed store (`StableBTreeMap::remove`, dropping the
returned value). -/
def storeRemove {α : Type} (m : List (Nat × α)) (k : Nat) : List (Nat × α) :=
  match m with
  | [] => []
  | (k', v) :: rest =>
      if k' = k then storeRemove rest k else (k', v) :: storeRemove rest k

/-- Keyed-store insert with replacement (`StableBTreeMap::insert`). -/
def storeInsert {α : Type} (m : List (Nat × α)) (k : Nat) (v : α) :
    List (Nat × α) :=
  (k, v) :: storeRemove m k

/-- The whole mutable state of the canister: the shared id counter and the
three entity stores. -/
structure State where
  counter : Nat
  clients : List (Nat × Client)
  suppliers : List (Nat × Supplier)
  orders : List (Nat × Order)
deriving Repr, DecidableEq

/-- The initial state: counter 0, all stores empty. -/
def initState : State := { counter := 0, clients := [], suppliers := [], orders := [] }

/-- `is_client_id_valid`: does the client id resolve in the Client store? -/
def is_client_id_valid (s : State) (client_id : Nat) : Bool :=
  (storeGet s.clients client_id).isSome

/-- `is_supplier_id_valid`: does the supplier id resolve in the Supplier
store? -/
def is_supplier_id_valid (s : State) (supplier_id : Nat) : Bool :=
  (storeGet s.suppliers supplier_id).isSome

/-- `add_client`: validate, allocate an id from the counter, persist a fresh
client with empty `order_ids`. -/
def add_client (payload : ClientPayload) (now : Nat) (s : State) :
    Except Error Client × State :=
  if payload.validate = false then
    (Except.error (Error.InvalidPayload "validation of the payload failed"), s)
  else
    let id := s.counter
    let client : Client :=
      { id := id, name := payload.name, email := payload.email,
        phone := payload.phone, order_ids := [], created_at := now,
        updated_at := none }
    (Except.ok client,
      { s with counter := s.counter + 1,
               clients := storeInsert s.clients client.id client })

/-- `add_supplier`: validate, allocate an id, persist a fresh supplier with
empty `order_ids`. -/
def add_supplier (payload : SupplierPayload) (now : Nat) (s : State) :
    Except Error Supplier × State :=
  if payload.validate = false then
    (Except.error (Error.InvalidPayload "validation of the payload failed"), s)
  else
    let id := s.counter
    let supplier : Supplier :=
      { id := id, name := payload.name, email := payload.email,
        phone := payload.phone, prefered_items := payload.prefered_items,
        order_ids := [], created_at := now, updated_at := none }
    (Except.ok supplier,
      { s with counter := s.counter + 1,
               suppliers := storeInsert s.suppliers supplier.id supplier })

/-- `add_order`: validate, check the client exists, allocate an id, persist a
fresh order with `supplier_id = none` and `is_complete = false`. -/
def add_order (payload : OrderPayload) (now : Nat) (s : State) :
    Except Error Order × State :=
  if payload.validate = false then
    (Except.error (Error.InvalidPayload "validation of the payload failed"), s)
  else if is_client_id_valid s payload.client_id = false then
    (Except.error (Error.NotFound
      ("Client with id=" ++ toString payload.client_id ++ " not found.")), s)
  else
    let id := s.counter
    let order : Order :=
      { id := id, title := payload.title, client_id := payload.client_id,
        supplier_id := none, products := payload.products,
        item_types := payload.items_types, is_complete := false,
        created_at := now, updated_at := none }
    (Except.ok order,
      { s with counter := s.counter + 1,
               orders := storeInsert s.orders order.id order })

/-- `add_order_supplier`: look the order up, check the supplier exists, set
`supplier_id`, bump `updated_at`, persist. -/
def add_order_supplier (payload : AddOrderSupplierPayload) (now : Nat)
    (s : State) : Except Error Order × State :=
  match storeGet s.orders payload.order_id with
  | some order =>
      if is_supplier_id_valid s payload.supplier_id = false then
        (Except.error (Error.NotFound
          ("Supplier with id=" ++ toString payload.supplier_id ++
            " not found.")), s)
      else
        let order' : Order :=
          { order with supplier_id := some payload.supplier_id,
                       updated_at := some now }
        (Except.ok order',
          { s with orders := storeInsert s.orders order'.id order' })
  | none =>
      (Except.error (Error.NotFound
        ("couldn't update an order with id=" ++ toString payload.order_id ++
          ". order not found")), s)

/-- `_update_ids`: append the order's id to the referenced client's and
supplier's `order_ids` and persist both.  The source unwraps both lookups and
the `supplier_id`; an unwrap of `None` is a trap, modelled as `none`. -/
def updateIds (order : Order) (s : State) : Option State :=
  match storeGet s.clients order.client_id with
  | none => none
  | some client =>
      let client' : Client :=
        { client with order_ids := client.order_ids ++ [order.id] }
      let s1 : State :=
        { s with clients := storeInsert s.clients client.id client' }
      match order.supplier_id with
      | none => none
      | some sid =>
          match storeGet s1.suppliers sid with
          | none => none
          | some supplier =>
              let supplier' : Supplier :=
                { supplier with order_ids := supplier.order_ids ++ [order.id] }
              some { s1 with
                suppliers := storeInsert s1.suppliers supplier.id supplier' }

/-- `complete_order`: guard against double completion, missing client,
unassigned or missing supplier; then mark complete, bump `updated_at`,
persist, and append the id to the linked entities via `_update_ids`. -/
def complete_order (id : Nat) (now : Nat) (s : State) :
    Option (Except Error Order × State) :=
  match storeGet s.orders id with
  | some order =>
      if order.is_complete then
        some (Except.error
          (Error.AlreadyCompleted "Order was already completed."), s)
      else if is_client_id_valid s order.client_id = false then
        some (Except.error (Error.NotFound
          ("Client with id=" ++ toString order.client_id ++ " not found.")), s)
      else
        match order.supplier_id with
        | none =>
            some (Except.error
              (Error.NotFound "No Supplier set for this order."), s)
        | some sid =>
            if is_supplier_id_valid s sid = false then
              some (Except.error (Error.NotFound
                ("Supplier with id=" ++ toString sid ++ " not found.")), s)
            else
              let order' : Order :=
                { order with is_complete := true, updated_at := some now }
              let s1 : State :=
                { s with orders := storeInsert s.orders order'.id order' }
              match updateIds order' s1 with
              | none => none
              | some s2 => some (Except.ok order', s2)
  | none =>
      some (Except.error (Error.NotFound
        ("couldn't update an order with id=" ++ toString id ++
          ". order not found")), s)

/-- `update_order`: the source fetches the order with
`.expect("order does not exist")`, which traps when the order is missing
(modelled as `none`); otherwise validate the payload, check the referenced
client and supplier, and replace the stored order keeping `id`, `created_at`
and `is_complete`. -/
def update_order (id : Nat) (payload : OrderPayload) (now : Nat) (s : State) :
    Option (Except Error Order × State) :=
  match storeGet s.orders id with
  | none => none
  | some order =>
      if payload.validate = false then
        some (Except.error
          (Error.InvalidPayload "validation of the payload failed"), s)
      else if is_client_id_valid s payload.client_id = false then
        some (Except.error (Error.NotFound
          ("Client with id=" ++ toString payload.client_id ++
            " not found.")), s)
      else if is_supplier_id_valid s payload.supplier_id = false then
        some (Except.error (Error.NotFound
          ("Supplier with id=" ++ toString payload.supplier_id ++
            " not found.")), s)
      else
        let updated_order : Order :=
          { id := order.id, title := payload.title,
            client_id := payload.client_id,
            supplier_id := some payload.supplier_id,
            item_types := payload.items_types, products := payload.products,
            is_complete := order.is_complete, created_at := order.created_at,
            updated_at := some now }
        some (Except.ok updated_order,
          { s with orders := storeInsert s.orders updated_order.id updated_order })

/-- `delete_order`: remove and return the order, or `NotFound`. -/
def delete_order (id : Nat) (s : State) : Except Error Order × State :=
  match storeGet s.orders id with
  | some order => (Except.ok order, { s with orders := storeRemove s.orders id })
  | none =>
      (Except.error (Error.NotFound
        ("Order id:" ++ toString id ++
          " deletion unsuccessful. Order Not found")), s)

/-- One public mutating operation together with its inputs (the timestamp the
host clock would return is carried as data). -/
inductive Op where
  | addClientOp (p : ClientPayload) (now : Nat)
  | addSupplierOp (p : SupplierPayload) (now : Nat)
  | addOrderOp (p : OrderPayload) (now : Nat)
  | addOrderSupplierOp (p : AddOrderSupplierPayload) (now : Nat)
  | completeOrderOp (id : Nat) (now : Nat)
  | updateOrderOp (id : Nat) (p : OrderPayload) (now : Nat)
  | deleteOrderOp (id : Nat)
deriving Repr, DecidableEq

/-- The state transition of one operation.  A trap (`none`) rolls the message
back, leaving the state unchanged, as the host runtime does. -/
def applyOp (op : Op) (s : State) : State :=
  match op with
  | .addClientOp p now => (add_client p now s).2
  | .addSupplierOp p now => (add_supplier p now s).2
  | .addOrderOp p now => (add_order p now s).2
  | .addOrderSupplierOp p now => (add_order_supplier p now s).2
  | .completeOrderOp id now =>
      match complete_order id now s with
      | some r => r.2
      | none => s
  | .updateOrderOp id p now =>
      match update_order id p now s with
      | some r => r.2
      | none => s
  | .deleteOrderOp id => (delete_order id s).2

/-- Run a list of operations from a state. -/
def runState (s : State) (ops : List Op) : State :=
  ops.foldl (fun s op => applyOp op s) s

/-- A state is reachable when some sequence of public operations produces it
from the initial state. -/
def reachable (s : State) : Prop :=
  ∃ ops : List Op, runState initState ops = s

/-- The id returned by a successful `add_client` / `add_supplier` /
`add_order`; `none` for the other operations and for failures. -/
def opRet (op : Op) (s : State) : Option Nat :=
  match op with
  | .addClientOp p now =>
      match (add_client p now s).1 with
      | .ok c => some c.id
      | .error _ => none
  | .addSupplierOp p now =>
      match (add_supplier p now s).1 with
      | .ok sp => some sp.id
      | .error _ => none
  | .addOrderOp p now =>
      match (add_order p now s).1 with
      | .ok o => some o.id
      | .error _ => none
  | _ => none

/-- The ids assigned by the successful entity creations of a run, in call
order. -/
def runIds (s : State) (ops : List Op) : List Nat :=
  match ops with
  | [] => []
  | op :: rest =>
      match opRet op s with
      | some i => i :: runIds (applyOp op s) rest
      | none => runIds (applyOp op s) rest

/-! ### Store lemmas -/

theorem storeGet_remove_self {α : Type} (m : List (Nat × α)) (k : Nat) :
    storeGet (storeRemove m k) k = none := by
  induction m with
  | nil => rfl
  | cons p rest ih =>
      obtain ⟨k0, v⟩ := p
      by_cases h0 : k0 = k
      · simp [storeRemove, h0, ih]
      · simp [storeRemove, storeGet, h0, ih]

theorem storeGet_remove_ne {α : Type} (m : List (Nat × α)) (k k' : Nat)
    (h : k' ≠ k) : storeGet (storeRemove m k) k' = storeGet m k' := by
  induction m with
  | nil => rfl
  | cons p rest ih =>
      obtain ⟨k0, v⟩ := p
      by_cases h0 : k0 = k
      · subst h0
        have hne : k0 ≠ k' := fun hh => h (hh.symm)
        simp [storeRemove, storeGet, hne, ih]
      · simp [storeRemove, storeGet, h0, ih]

theorem storeGet_remove_some {α : Type} {m : List (Nat × α)} {k k' : Nat}
    {v : α} (h : storeGet (storeRemove m k) k' = some v) :
    storeGet m k' = some v := by
  by_cases hk : k' = k
  · subst hk
    rw [storeGet_remove_self] at h
    exact absurd h (by simp)
  · rw [storeGet_remove_ne m k k' hk] at h
    exact h

theorem storeGet_insert_self {α : Type} (m : List (Nat × α)) (k : Nat)
    (v : α) : storeGet (storeInsert m k v) k = some v := by
  simp [storeInsert, storeGet]

theorem storeGet_insert_ne {α : Type} (m : List (Nat × α)) (k k' : Nat)
    (v : α) (h : k' ≠ k) :
    storeGet (storeInsert m k v) k' = storeGet m k' := by
  have hne : k ≠ k' := fun hh => h (hh.symm)
  simp [storeInsert, storeGet, hne]
  exact storeGet_remove_ne m k k' h

/-- Case analysis for a lookup in an updated store. -/
theorem storeGet_insert_cases {α : Type} {m : List (Nat × α)} {k k' : Nat}
    {v w : α} (h : storeGet (storeInsert m k v) k' = some w) :
    (k' = k ∧ w = v) ∨ (k' ≠ k ∧ storeGet m k' = some w) := by
  by_cases hk : k' = k
  · subst hk
    rw [storeGet_insert_self] at h
    exact Or.inl ⟨rfl, (Option.some_injective _ h).symm⟩
  · rw [storeGet_insert_ne m k k' v hk] at h
    exact Or.inr ⟨hk, h⟩

theorem count_eq_zero_of_forall_lt {l : List Nat} {n : Nat}
    (h : ∀ x ∈ l, x < n) : List.count n l = 0 := by
  rw [List.count_eq_zero]
  intro hmem
  exact absurd (h n hmem) (lt_irrefl n)

/-! ### The reachability invariant

Every entity is stored under its own `id`; every id recorded in an
`order_ids` list, and every order key, is strictly below the counter; and an
order that is not yet complete is recorded in nobody's `order_ids`. -/

structure Inv (s : State) : Prop where
  client_key : ∀ k c, storeGet s.clients k = some c → c.id = k
  supplier_key : ∀ k sp, storeGet s.suppliers k = some sp → sp.id = k
  order_key : ∀ k o, storeGet s.orders k = some o → o.id = k
  client_oids_lt : ∀ k c, storeGet s.clients k = some c →
    ∀ oid ∈ c.order_ids, oid < s.counter
  supplier_oids_lt : ∀ k sp, storeGet s.suppliers k = some sp →
    ∀ oid ∈ sp.order_ids, oid < s.counter
  order_key_lt : ∀ k o, storeGet s.orders k = some o → k < s.counter
  incomplete_client : ∀ k o, storeGet s.orders k = some o →
    o.is_complete = false →
    ∀ k2 c, storeGet s.clients k2 = some c → List.count k c.order_ids = 0
  incomplete_supplier : ∀ k o, storeGet s.orders k = some o →
    o.is_complete = false →
    ∀ k2 sp, storeGet s.suppliers k2 = some sp → List.count k sp.order_ids = 0

theorem inv_initState : Inv initState := by
  constructor <;> intro k <;> simp [initState, storeGet] at *

/-! Preservation of the invariant by each state shape the operations
produce. -/

theorem inv_insert_fresh_client {s : State} (h : Inv s) (cl : Client)
    (hid : cl.id = s.counter) (hoids : cl.order_ids = []) :
    Inv { s with counter := s.counter + 1,
                 clients := storeInsert s.clients cl.id cl } := by
  constructor
  · intro k c hc
    rcases storeGet_insert_cases hc with ⟨rfl, rfl⟩ | ⟨_, hold⟩
    · rfl
    · exact h.client_key k c hold
  · intro k sp hsp
    exact h.supplier_key k sp hsp
  · intro k o ho
    exact h.order_key k o ho
  · intro k c hc oid hmem
    rcases storeGet_insert_cases hc with ⟨rfl, rfl⟩ | ⟨_, hold⟩
    · rw [hoids] at hmem
      exact absurd hmem (List.not_mem_nil oid)
    · exact Nat.lt_succ_of_lt (h.client_oids_lt k c hold oid hmem)
  · intro k sp hsp oid hmem
    exact Nat.lt_succ_of_lt (h.supplier_oids_lt k sp hsp oid hmem)
  · intro k o ho
    exact Nat.lt_succ_of_lt (h.order_key_lt k o ho)
  · intro k o ho hnc k2 c hc
    rcases storeGet_insert_cases hc with ⟨rfl, rfl⟩ | ⟨_, hold⟩
    · rw [hoids]
      rfl
    · exact h.incomplete_client k o ho hnc k2 c hold
  · intro k o ho hnc k2 sp hsp
    exact h.incomplete_supplier k o ho hnc k2 sp hsp

theorem inv_insert_fresh_supplier {s : State} (h : Inv s) (sp : Supplier)
    (hid : sp.id = s.counter) (hoids : sp.order_ids = []) :
    Inv { s with counter := s.counter + 1,
                 suppliers := storeInsert s.suppliers sp.id sp } := by
  constructor
  · intro k c hc
    exact h.client_key k c hc
  · intro k sp' hsp
    rcases storeGet_insert_cases hsp with ⟨rfl, rfl⟩ | ⟨_, hold⟩
    · rfl
    · exact h.supplier_key k sp' hold
  · intro k o ho
    exact h.order_key k o ho
  · intro k c hc oid hmem
    exact Nat.lt_succ_of_lt (h.client_oids_lt k c hc oid hmem)
  · intro k sp' hsp oid hmem
    rcases storeGet_insert_cases hsp with ⟨rfl, rfl⟩ | ⟨_, hold⟩
    · rw [hoids] at hmem
      exact absurd hmem (List.not_mem_nil oid)
    · exact Nat.lt_succ_of_lt (h.supplier_oids_lt k sp' hold oid hmem)
  · intro k o ho
    exact Nat.lt_succ_of_lt (h.order_key_lt k o ho)
  · intro k o ho hnc k2 c hc
    exact h.incomplete_client k o ho hnc k2 c hc
  · intro k o ho hnc k2 sp' hsp
    rcases storeGet_insert_cases hsp with ⟨rfl, rfl⟩ | ⟨_, hold⟩
    · rw [hoids]
      rfl
    · exact h.incomplete_supplier k o ho hnc k2 sp' hold

theorem inv_insert_fresh_order {s : State} (h : Inv s) (o : Order)
    (hid : o.id = s.counter) :
    Inv { s with counter := s.counter + 1,
                 orders := storeInsert s.orders o.id o } := by
  constructor
  · intro k c hc
    exact h.client_key k c hc
  · intro k sp hsp
    exact h.supplier_key k sp hsp
  · intro k o' ho
    rcases storeGet_insert_cases ho with ⟨rfl, rfl⟩ | ⟨_, hold⟩
    · rfl
    · exact h.order_key k o' hold
  · intro k c hc oid hmem
    exact Nat.lt_succ_of_lt (h.client_oids_lt k c hc oid hmem)
  · intro k sp hsp oid hmem
    exact Nat.lt_succ_of_lt (h.supplier_oids_lt k sp hsp oid hmem)
  · intro k o' ho
    rcases storeGet_insert_cases ho with ⟨rfl, rfl⟩ | ⟨_, hold⟩
    · rw [hid]
      exact Nat.lt_succ_self s.counter
    · exact Nat.lt_succ_of_lt (h.order_key_lt k o' hold)
  · intro k o' ho hnc k2 c hc
    rcases storeGet_insert_cases ho with ⟨rfl, rfl⟩ | ⟨_, hold⟩
    · rw [hid]
      exact count_eq_zero_of_forall_lt (h.client_oids_lt k2 c hc)
    · exact h.incomplete_client k o' hold hnc k2 c hc
  · intro k o' ho hnc k2 sp hsp
    rcases storeGet_insert_cases ho with ⟨rfl, rfl⟩ | ⟨_, hold⟩
    · rw [hid]
      exact count_eq_zero_of_forall_lt (h.supplier_oids_lt k2 sp hsp)
    · exact h.incomplete_supplier k o' hold hnc k2 sp hsp

theorem inv_replace_order {s : State} (h : Inv s) {k : Nat} {old : Order}
    (o : Order)
    (hold : storeGet s.orders k = some old) (hid : o.id = k)
    (hcomp : o.is_complete = old.is_complete) :
    Inv { s with orders := storeInsert s.orders o.id o } := by
  constructor
  · intro k' c hc
    exact h.client_key k' c hc
  · intro k' sp hsp
    exact h.supplier_key k' sp hsp
  · intro k' o' ho
    rcases storeGet_insert_cases ho with ⟨rfl, rfl⟩ | ⟨_, hget⟩
    · rfl
    · exact h.order_key k' o' hget
  · intro k' c hc oid hmem
    exact h.client_oids_lt k' c hc oid hmem
  · intro k' sp hsp oid hmem
    exact h.supplier_oids_lt k' sp hsp oid hmem
  · intro k' o' ho
    rcases storeGet_insert_cases ho with ⟨rfl, rfl⟩ | ⟨_, hget⟩
    · rw [hid]
      exact h.order_key_lt k old hold
    · exact h.order_key_lt k' o' hget
  · intro k' o' ho hnc k2 c hc
    rcases storeGet_insert_cases ho with ⟨rfl, rfl⟩ | ⟨_, hget⟩
    · rw [hid]
      exact h.incomplete_client k old hold (hcomp ▸ hnc) k2 c hc
    · exact h.incomplete_client k' o' hget hnc k2 c hc
  · intro k' o' ho hnc k2 sp hsp
    rcases storeGet_insert_cases ho with ⟨rfl, rfl⟩ | ⟨_, hget⟩
    · rw [hid]
      exact h.incomplete_supplier k old hold (hcomp ▸ hnc) k2 sp hsp
    · exact h.incomplete_supplier k' o' hget hnc k2 sp hsp

theorem inv_remove_order {s : State} (h : Inv s) (k : Nat) :
    Inv { s with orders := storeRemove s.orders k } := by
  constructor
  · intro k' c hc
    exact h.client_key k' c hc
  · intro k' sp hsp
    exact h.supplier_key k' sp hsp
  · intro k' o ho
    exact h.order_key k' o (storeGet_remove_some ho)
  · intro k' c hc oid hmem
    exact h.client_oids_lt k' c hc oid hmem
  · intro k' sp hsp oid hmem
    exact h.supplier_oids_lt k' sp hsp oid hmem
  · intro k' o ho
    exact h.order_key_lt k' o (storeGet_remove_some ho)
  · intro k' o ho hnc k2 c hc
    exact h.incomplete_client k' o (storeGet_remove_some ho) hnc k2 c hc
  · intro k' o ho hnc k2 sp hsp
    exact h.incomplete_supplier k' o (storeGet_remove_some ho) hnc k2 sp hsp

/-! ### Branch characterizations of `complete_order` -/

theorem complete_order_none {s : State} {id : Nat} (now : Nat)
    (ho : storeGet s.orders id = none) :
    complete_order id now s =
      some (Except.error (Error.NotFound
        ("couldn't update an order with id=" ++ toString id ++
          ". order not found")), s) := by
  simp [complete_order, ho]

theorem complete_order_already {s : State} {id : Nat} (now : Nat) {o : Order}
    (ho : storeGet s.orders id = some o) (hcmp : o.is_complete = true) :
    complete_order id now s =
      some (Except.error
        (Error.AlreadyCompleted "Order was already completed."), s) := by
  simp [complete_order, ho, hcmp]

theorem complete_order_no_client {s : State} {id : Nat} (now : Nat)
    {o : Order} (ho : storeGet s.orders id = some o)
    (hnc : o.is_complete = false)
    (hcv : storeGet s.clients o.client_id = none) :
    complete_order id now s =
      some (Except.error (Error.NotFound
        ("Client with id=" ++ toString o.client_id ++ " not found.")), s) := by
  simp [complete_order, ho, hnc, is_client_id_valid, hcv]

theorem complete_order_no_supplier {s : State} {id : Nat} (now : Nat)
    {o : Order} {c : Client} (ho : storeGet s.orders id = some o)
    (hnc : o.is_complete = false)
    (hc : storeGet s.clients o.client_id = some c)
    (hsid : o.supplier_id = none) :
    complete_order id now s =
      some (Except.error
        (Error.NotFound "No Supplier set for this order."), s) := by
  simp [complete_order, ho, hnc, is_client_id_valid, hc, hsid]

theorem complete_order_bad_supplier {s : State} {id : Nat} (now : Nat)
    {o : Order} {c : Client} {sid : Nat} (ho : storeGet s.orders id = some o)
    (hnc : o.is_complete = false)
    (hc : storeGet s.clients o.client_id = some c)
    (hsid : o.supplier_id = some sid)
    (hsp : storeGet s.suppliers sid = none) :
    complete_order id now s =
      some (Except.error (Error.NotFound
        ("Supplier with id=" ++ toString sid ++ " not found.")), s) := by
  simp [complete_order, ho, hnc, is_client_id_valid, hc, hsid,
    is_supplier_id_valid, hsp]

theorem complete_order_eq {s : State} {id : Nat} (now : Nat) {o : Order}
    {c : Client} {sid : Nat} {sp : Supplier}
    (ho : storeGet s.orders id = some o) (hnc : o.is_complete = false)
    (hc : storeGet s.clients o.client_id = some c)
    (hsid : o.supplier_id = some sid)
    (hsp : storeGet s.suppliers sid = some sp) :
    complete_order id now s =
      some (Except.ok { o with is_complete := true, updated_at := some now },
        { counter := s.counter,
          clients := storeInsert s.clients c.id
            { c with order_ids := c.order_ids ++ [o.id] },
          suppliers := storeInsert s.suppliers sp.id
            { sp with order_ids := sp.order_ids ++ [o.id] },
          orders := storeInsert s.orders o.id
            { o with is_complete := true, updated_at := some now } }) := by
  simp [complete_order, updateIds, ho, hnc, is_client_id_valid, hc, hsid,
    is_supplier_id_valid, hsp]

theorem inv_complete {s : State} (h : Inv s) {id : Nat} (now : Nat)
    {o : Order} {c : Client} {sid : Nat} {sp : Supplier}
    (ho : storeGet s.orders id = some o) (hnc : o.is_complete = false)
    (hc : storeGet s.clients o.client_id = some c)
    (hsid : o.supplier_id = some sid)
    (hsp : storeGet s.suppliers sid = some sp) :
    Inv { counter := s.counter,
          clients := storeInsert s.clients c.id
            { c with order_ids := c.order_ids ++ [o.id] },
          suppliers := storeInsert s.suppliers sp.id
            { sp with order_ids := sp.order_ids ++ [o.id] },
          orders := storeInsert s.orders o.id
            { o with is_complete := true, updated_at := some now } } := by
  have hoid : o.id = id := h.order_key id o ho
  have hlt : o.id < s.counter := hoid ▸ h.order_key_lt id o ho
  constructor
  · intro k c1 hc1
    rcases storeGet_insert_cases hc1 with ⟨rfl, rfl⟩ | ⟨_, hget⟩
    · rfl
    · exact h.client_key k c1 hget
  · intro k sp1 hsp1
    rcases storeGet_insert_cases hsp1 with ⟨rfl, rfl⟩ | ⟨_, hget⟩
    · rfl
    · exact h.supplier_key k sp1 hget
  · intro k o1 ho1
    rcases storeGet_insert_cases ho1 with ⟨rfl, rfl⟩ | ⟨_, hget⟩
    · rfl
    · exact h.order_key k o1 hget
  · intro k c1 hc1 oid hmem
    rcases storeGet_insert_cases hc1 with ⟨rfl, rfl⟩ | ⟨_, hget⟩
    · rcases List.mem_append.mp hmem with hmem' | hmem'
      · exact h.client_oids_lt o.client_id c hc oid hmem'
      · rw [List.mem_singleton.mp hmem']
        exact hlt
    · exact h.client_oids_lt k c1 hget oid hmem
  · intro k sp1 hsp1 oid hmem
    rcases storeGet_insert_cases hsp1 with ⟨rfl, rfl⟩ | ⟨_, hget⟩
    · rcases List.mem_append.mp hmem with hmem' | hmem'
      · exact h.supplier_oids_lt sid sp hsp oid hmem'
      · rw [List.mem_singleton.mp hmem']
        exact hlt
    · exact h.supplier_oids_lt k sp1 hget oid hmem
  · intro k o1 ho1
    rcases storeGet_insert_cases ho1 with ⟨rfl, rfl⟩ | ⟨_, hget⟩
    · exact hlt
    · exact h.order_key_lt k o1 hget
  · intro k o1 ho1 hnc1 k2 c1 hc1
    rcases storeGet_insert_cases ho1 with ⟨rfl, rfl⟩ | ⟨hne, hget⟩
    · exact absurd hnc1 (by simp)
    · rcases storeGet_insert_cases hc1 with ⟨rfl, rfl⟩ | ⟨_, hcget⟩
      · show List.count k (c.order_ids ++ [o.id]) = 0
        rw [List.count_append,
          h.incomplete_client k o1 hget hnc1 o.client_id c hc,
          List.count_eq_zero.mpr (by simp [hne])]
      · exact h.incomplete_client k o1 hget hnc1 k2 c1 hcget
  · intro k o1 ho1 hnc1 k2 sp1 hsp1
    rcases storeGet_insert_cases ho1 with ⟨rfl, rfl⟩ | ⟨hne, hget⟩
    · exact absurd hnc1 (by simp)
    · rcases storeGet_insert_cases hsp1 with ⟨rfl, rfl⟩ | ⟨_, hsget⟩
      · show List.count k (sp.order_ids ++ [o.id]) = 0
        rw [List.count_append,
          h.incomplete_supplier k o1 hget hnc1 sid sp hsp,
          List.count_eq_zero.mpr (by simp [hne])]
      · exact h.incomplete_supplier k o1 hget hnc1 k2 sp1 hsget

theorem complete_order_inversion {s : State} {id now : Nat}
    {r : Except Error Order × State} (h : complete_order id now s = some r) :
    r.2 = s ∨
    ∃ o c sid sp,
      storeGet s.orders id = some o ∧ o.is_complete = false ∧
      storeGet s.clients o.client_id = some c ∧ o.supplier_id = some sid ∧
      storeGet s.suppliers sid = some sp ∧
      r.2 = { counter := s.counter,
              clients := storeInsert s.clients c.id
                { c with order_ids := c.order_ids ++ [o.id] },
              suppliers := storeInsert s.suppliers sp.id
                { sp with order_ids := sp.order_ids ++ [o.id] },
              orders := storeInsert s.orders o.id
                { o with is_complete := true, updated_at := some now } } := by
  rcases ho : storeGet s.orders id with _ | o
  · rw [complete_order_none now ho] at h
    simp only [Option.some.injEq] at h
    exact Or.inl (congrArg Prod.snd h).symm
  · by_cases hcmp : o.is_complete = true
    · rw [complete_order_already now ho hcmp] at h
      simp only [Option.some.injEq] at h
      exact Or.inl (congrArg Prod.snd h).symm
    · have hnc : o.is_complete = false := by simpa using hcmp
      rcases hc : storeGet s.clients o.client_id with _ | c
      · rw [complete_order_no_client now ho hnc hc] at h
        simp only [Option.some.injEq] at h
        exact Or.inl (congrArg Prod.snd h).symm
      · rcases hsid : o.supplier_id with _ | sid
        · rw [complete_order_no_supplier now ho hnc hc hsid] at h
          simp only [Option.some.injEq] at h
          exact Or.inl (congrArg Prod.snd h).symm
        · rcases hsp : storeGet s.suppliers sid with _ | sp
          · rw [complete_order_bad_supplier now ho hnc hc hsid hsp] at h
            simp only [Option.some.injEq] at h
            exact Or.inl (congrArg Prod.snd h).symm
          · rw [complete_order_eq now ho hnc hc hsid hsp] at h
            simp only [Option.some.injEq] at h
            exact Or.inr ⟨o, c, sid, sp, rfl, hnc, hc, hsid, hsp,
              (congrArg Prod.snd h).symm⟩

theorem inv_applyOp (op : Op) {s : State} (h : Inv s) : Inv (applyOp op s) := by
  cases op with
  | addClientOp p now =>
      by_cases hv : p.validate = false
      · simp [applyOp, add_client, hv]
        exact h
      · simp [applyOp, add_client, hv]
        exact inv_insert_fresh_client h
          { id := s.counter, name := p.name, email := p.email,
            phone := p.phone, order_ids := [], created_at := now,
            updated_at := none } rfl rfl
  | addSupplierOp p now =>
      by_cases hv : p.validate = false
      · simp [applyOp, add_supplier, hv]
        exact h
      · simp [applyOp, add_supplier, hv]
        exact inv_insert_fresh_supplier h
          { id := s.counter, name := p.name, email := p.email,
            phone := p.phone, prefered_items := p.prefered_items,
            order_ids := [], created_at := now, updated_at := none } rfl rfl
  | addOrderOp p now =>
      by_cases hv : p.validate = false
      · simp [applyOp, add_order, hv]
        exact h
      · by_cases hcv : is_client_id_valid s p.client_id = false
        · simp [applyOp, add_order, hv, hcv]
          exact h
        · simp [applyOp, add_order, hv, hcv]
          exact inv_insert_fresh_order h
            { id := s.counter, title := p.title, client_id := p.client_id,
              supplier_id := none, item_types := p.items_types,
              products := p.products, is_complete := false, created_at := now,
              updated_at := none } rfl
  | addOrderSupplierOp p now =>
      rcases hget : storeGet s.orders p.order_id with _ | order
      · simp [applyOp, add_order_supplier, hget]
        exact h
      · by_cases hsv : is_supplier_id_valid s p.supplier_id = false
        · simp [applyOp, add_order_supplier, hget, hsv]
          exact h
        · simp [applyOp, add_order_supplier, hget, hsv]
          exact inv_replace_order h
            { order with supplier_id := some p.supplier_id,
                         updated_at := some now }
            hget (h.order_key p.order_id order hget) rfl
  | completeOrderOp id now =>
      simp only [applyOp]
      rcases hco : complete_order id now s with _ | r
      · exact h
      · show Inv r.2
        rcases complete_order_inversion hco with hs |
          ⟨o, c, sid, sp, ho, hnc, hc, hsid, hsp, hr⟩
        · rw [hs]
          exact h
        · rw [hr]
          exact inv_complete h now ho hnc hc hsid hsp
  | updateOrderOp id p now =>
      rcases hget : storeGet s.orders id with _ | order
      · simp [applyOp, update_order, hget]
        exact h
      · by_cases hv : p.validate = false
        · simp [applyOp, update_order, hget, hv]
          exact h
        · by_cases hcv : is_client_id_valid s p.client_id = false
          · simp [applyOp, update_order, hget, hv, hcv]
            exact h
          · by_cases hsv : is_supplier_id_valid s p.supplier_id = false
            · simp [applyOp, update_order, hget, hv, hcv, hsv]
              exact h
            · simp [applyOp, update_order, hget, hv, hcv, hsv]
              exact inv_replace_order h
                { id := order.id, title := p.title, client_id := p.client_id,
                  supplier_id := some p.supplier_id,
                  item_types := p.items_types, products := p.products,
                  is_complete := order.is_complete,
                  created_at := order.created_at, updated_at := some now }
                hget (h.order_key id order hget) rfl
  | deleteOrderOp id =>
      rcases hget : storeGet s.orders id with _ | order
      · simp [applyOp, delete_order, hget]
        exact h
      · simp [applyOp, delete_order, hget]
        exact inv_remove_order h id

theorem inv_runState {s : State} (h : Inv s) (ops : List Op) :
    Inv (runState s ops) := by
  induction ops generalizing s with
  | nil => exact h
  | cons op rest ih => exact ih (inv_applyOp op h)

theorem inv_reachable {s : State} (h : reachable s) : Inv s := by
  obtain ⟨ops, hops⟩ := h
  rw [← hops]
  exact inv_runState inv_initState ops

/-! ### Branch characterizations of `update_order` -/

theorem update_order_none {s : State} {id : Nat} (p : OrderPayload)
    (now : Nat) (ho : storeGet s.orders id = none) :
    update_order id p now s = none := by
  simp [update_order, ho]

theorem update_order_invalid {s : State} {id : Nat} {p : OrderPayload}
    (now : Nat) {o : Order} (ho : storeGet s.orders id = some o)
    (hv : p.validate = false) :
    update_order id p now s =
      some (Except.error
        (Error.InvalidPayload "validation of the payload failed"), s) := by
  simp [update_order, ho, hv]

theorem update_order_no_client {s : State} {id : Nat} {p : OrderPayload}
    (now : Nat) {o : Order} (ho : storeGet s.orders id = some o)
    (hv : p.validate = true) (hc : storeGet s.clients p.client_id = none) :
    update_order id p now s =
      some (Except.error (Error.NotFound
        ("Client with id=" ++ toString p.client_id ++ " not found.")), s) := by
  simp [update_order, ho, hv, is_client_id_valid, hc]

theorem update_order_no_supplier {s : State} {id : Nat} {p : OrderPayload}
    (now : Nat) {o : Order} {c : Client}
    (ho : storeGet s.orders id = some o) (hv : p.validate = true)
    (hc : storeGet s.clients p.client_id = some c)
    (hsp : storeGet s.suppliers p.supplier_id = none) :
    update_order id p now s =
      some (Except.error (Error.NotFound
        ("Supplier with id=" ++ toString p.supplier_id ++
          " not found.")), s) := by
  simp [update_order, ho, hv, is_client_id_valid, hc, is_supplier_id_valid,
    hsp]

theorem update_order_ok {s : State} {id : Nat} {p : OrderPayload} (now : Nat)
    {o : Order} {c : Client} {sp : Supplier}
    (ho : storeGet s.orders id = some o) (hv : p.validate = true)
    (hc : storeGet s.clients p.client_id = some c)
    (hsp : storeGet s.suppliers p.supplier_id = some sp) :
    update_order id p now s =
      some (Except.ok
        { id := o.id, title := p.title, client_id := p.client_id,
          supplier_id := some p.supplier_id, item_types := p.items_types,
          products := p.products, is_complete := o.is_complete,
          created_at := o.created_at, updated_at := some now },
        { counter := s.counter, clients := s.clients,
          suppliers := s.suppliers,
          orders := storeInsert s.orders o.id
            { id := o.id, title := p.title, client_id := p.client_id,
              supplier_id := some p.supplier_id, item_types := p.items_types,
              products := p.products, is_complete := o.is_complete,
              created_at := o.created_at, updated_at := some now } }) := by
  simp [update_order, ho, hv, is_client_id_valid, hc, is_supplier_id_valid,
    hsp]

/-- Whenever `update_order` returns `Ok`, the stored order was rebuilt from
the payload on top of the pre-existing order's `id`, `created_at` and
`is_complete`, and both the referenced client and supplier resolve. -/
theorem update_order_ok_inversion {s : State} {id now : Nat}
    {p : OrderPayload} {o' : Order} {s' : State}
    (h : update_order id p now s = some (Except.ok o', s')) :
    ∃ o, storeGet s.orders id = some o ∧ p.validate = true ∧
      (∃ c, storeGet s.clients p.client_id = some c) ∧
      (∃ sp, storeGet s.suppliers p.supplier_id = some sp) ∧
      o' = { id := o.id, title := p.title, client_id := p.client_id,
             supplier_id := some p.supplier_id, item_types := p.items_types,
             products := p.products, is_complete := o.is_complete,
             created_at := o.created_at, updated_at := some now } ∧
      s' = { s with orders := storeInsert s.orders o.id o' } := by
  rcases ho : storeGet s.orders id with _ | o
  · rw [update_order_none p now ho] at h
    exact absurd h (by simp)
  · by_cases hv : p.validate = true
    · rcases hc : storeGet s.clients p.client_id with _ | c
      · rw [update_order_no_client now ho hv hc] at h
        exact absurd h (by simp)
      · rcases hsp : storeGet s.suppliers p.supplier_id with _ | sp
        · rw [update_order_no_supplier now ho hv hc hsp] at h
          exact absurd h (by simp)
        · rw [update_order_ok now ho hv hc hsp] at h
          simp only [Option.some.injEq, Prod.mk.injEq, Except.ok.injEq] at h
          exact ⟨o, rfl, hv, ⟨c, rfl⟩, ⟨sp, rfl⟩, h.1.symm,
            by rw [← h.1, ← h.2]⟩
    · have hv' : p.validate = false := by simpa using hv
      rw [update_order_invalid now ho hv'] at h
      exact absurd h (by simp)

/-! ### Concrete scenario used by the witnesses: a client, a supplier and an
order with the supplier assigned, built by running the public operations. -/

def wClientPayload : ClientPayload :=
  { name := "Acme", email := "acme@mail.co", phone := "5551234" }

def wSupplierPayload : SupplierPayload :=
  { name := "Bolt Supply", email := "bolts@mail.co", phone := "5554321",
    prefered_items := ["bolts"] }

def wOrderPayload : OrderPayload :=
  { title := "o1", client_id := 0, supplier_id := 0,
    products := [("bolts", 5)], items_types := ["bolts"],
    is_complete := false }

def wOps : List Op :=
  [Op.addClientOp wClientPayload 10,
   Op.addSupplierOp wSupplierPayload 11,
   Op.addOrderOp wOrderPayload 12,
   Op.addOrderSupplierOp { order_id := 2, supplier_id := 1 } 13]

def wState : State := runState initState wOps

def wClient : Client :=
  { id := 0, name := "Acme", email := "acme@mail.co", phone := "5551234",
    order_ids := [], created_at := 10, updated_at := none }

def wSupplier : Supplier :=
  { id := 1, name := "Bolt Supply", email := "bolts@mail.co",
    phone := "5554321", prefered_items := ["bolts"], order_ids := [],
    created_at := 11, updated_at := none }

def wOrder : Order :=
  { id := 2, title := "o1", client_id := 0, supplier_id := some 1,
    item_types := ["bolts"], products := [("bolts", 5)],
    is_complete := false, created_at := 12, updated_at := some 13 }

/-- The scenario continued by completing order 2, so that order 2 is
complete in `cState`. -/
def cState : State :=
  runState initState (wOps ++ [Op.completeOrderOp 2 14])

def cOrder : Order :=
  { id := 2, title := "o1", client_id := 0, supplier_id := some 1,
    item_types := ["bolts"], products := [("bolts", 5)],
    is_complete := true, created_at := 12, updated_at := some 14 }

/-! ### Claims -/

/-- Claim C1: in every reachable state, completing an existing, not yet
complete order whose client resolves and whose supplier is set and resolves
returns `Ok` with the order marked complete and `updated_at` set, persists
it in the Order store, and afterwards the referenced client's and
supplier's `order_ids` contain the order's id exactly once. -/
theorem claim_C1 (s : State) (hreach : reachable s) (id now : Nat)
    (o : Order) (ho : storeGet s.orders id = some o)
    (hnc : o.is_complete = false)
    (c : Client) (hc : storeGet s.clients o.client_id = some c)
    (sid : Nat) (hsid : o.supplier_id = some sid)
    (sp : Supplier) (hsp : storeGet s.suppliers sid = some sp) :
    ∃ o' s', complete_order id now s = some (Except.ok o', s') ∧
      o'.is_complete = true ∧ o'.updated_at = some now ∧
      storeGet s'.orders id = some o' ∧
      ∃ c' sp', storeGet s'.clients o.client_id = some c' ∧
        storeGet s'.suppliers sid = some sp' ∧
        List.count o'.id c'.order_ids = 1 ∧
        List.count o'.id sp'.order_ids = 1 := by
  have hInv := inv_reachable hreach
  have hcid : c.id = o.client_id := hInv.client_key o.client_id c hc
  have hspid : sp.id = sid := hInv.supplier_key sid sp hsp
  have hoid : o.id = id := hInv.order_key id o ho
  have hcount : List.count id c.order_ids = 0 :=
    hInv.incomplete_client id o ho hnc o.client_id c hc
  have hcount' : List.count id sp.order_ids = 0 :=
    hInv.incomplete_supplier id o ho hnc sid sp hsp
  refine ⟨{ o with is_complete := true, updated_at := some now }, _,
    complete_order_eq now ho hnc hc hsid hsp, rfl, rfl, ?_,
    { c with order_ids := c.order_ids ++ [o.id] },
    { sp with order_ids := sp.order_ids ++ [o.id] }, ?_, ?_, ?_, ?_⟩
  · show storeGet (storeInsert s.orders o.id _) id = _
    rw [← hoid]
    exact storeGet_insert_self s.orders o.id _
  · show storeGet (storeInsert s.clients c.id _) o.client_id = _
    rw [← hcid]
    exact storeGet_insert_self s.clients c.id _
  · show storeGet (storeInsert s.suppliers sp.id _) sid = _
    rw [← hspid]
    exact storeGet_insert_self s.suppliers sp.id _
  · show List.count o.id (c.order_ids ++ [o.id]) = 1
    rw [hoid]
    simp [List.count_append, hcount]
  · show List.count o.id (sp.order_ids ++ [o.id]) = 1
    rw [hoid]
    simp [List.count_append, hcount']

/-- Witness for C1: the concrete scenario (client 0, supplier 1, order 2
with supplier 1 assigned) reaches the conclusion at `now = 14`. -/
theorem claim_C1_witness :
    ∃ o' s', complete_order 2 14 wState = some (Except.ok o', s') ∧
      o'.is_complete = true ∧ o'.updated_at = some 14 ∧
      storeGet s'.orders 2 = some o' ∧
      ∃ c' sp', storeGet s'.clients wOrder.client_id = some c' ∧
        storeGet s'.suppliers 1 = some sp' ∧
        List.count o'.id c'.order_ids = 1 ∧
        List.count o'.id sp'.order_ids = 1 :=
  claim_C1 wState ⟨wOps, rfl⟩ 2 14 wOrder (by decide) rfl
    wClient (by decide) 1 rfl wSupplier (by decide)

/-- Claim C2: for an existing order, `complete_order` returns
`AlreadyCompleted` when the order is already complete; otherwise `NotFound`
when the client does not resolve, when no supplier is set, or when the set
supplier does not resolve — and in each error case the stores and the
counter (the whole state) are unchanged. -/
theorem claim_C2 (s : State) (id now : Nat) (o : Order)
    (ho : storeGet s.orders id = some o) :
    (o.is_complete = true →
      ∃ m, complete_order id now s =
        some (Except.error (Error.AlreadyCompleted m), s)) ∧
    (o.is_complete = false → storeGet s.clients o.client_id = none →
      ∃ m, complete_order id now s =
        some (Except.error (Error.NotFound m), s)) ∧
    (∀ c, o.is_complete = false →
      storeGet s.clients o.client_id = some c → o.supplier_id = none →
      ∃ m, complete_order id now s =
        some (Except.error (Error.NotFound m), s)) ∧
    (∀ c sid, o.is_complete = false →
      storeGet s.clients o.client_id = some c → o.supplier_id = some sid →
      storeGet s.suppliers sid = none →
      ∃ m, complete_order id now s =
        some (Except.error (Error.NotFound m), s)) := by
  refine ⟨?_, ?_, ?_, ?_⟩
  · intro hcmp
    exact ⟨_, complete_order_already now ho hcmp⟩
  · intro hnc hcv
    exact ⟨_, complete_order_no_client now ho hnc hcv⟩
  · intro c hnc hc hsid
    exact ⟨_, complete_order_no_supplier now ho hnc hc hsid⟩
  · intro c sid hnc hc hsid hsp
    exact ⟨_, complete_order_bad_supplier now ho hnc hc hsid hsp⟩

/-- Witness for C2: completing the already-completed order 2 of the
concrete scenario fails with `AlreadyCompleted` and leaves the state
untouched. -/
theorem claim_C2_witness :
    ∃ m, complete_order 2 15 cState =
      some (Except.error (Error.AlreadyCompleted m), cState) :=
  (claim_C2 cState 2 15 cOrder (by decide)).1 rfl

/-- Claim C3, behaviour at the failing input: when the id is not a key of
the Order store, `update_order` traps — the source's
`.expect("order does not exist")` panic, modelled as `none` — instead of
returning the recoverable `NotFound` error value the claim describes. -/
theorem claim_C3 (s : State) (id : Nat) (p : OrderPayload) (now : Nat)
    (h : storeGet s.orders id = none) :
    update_order id p now s = none :=
  update_order_none p now h

/-- Witness for C3: updating order 0 in the initial (empty) state traps. -/
theorem claim_C3_witness : update_order 0 wOrderPayload 0 initState = none :=
  claim_C3 initState 0 wOrderPayload 0 rfl

/-- A payload whose title is empty (invalid) and whose client id 99 resolves
to nothing. -/
def c4Payload : OrderPayload :=
  { title := "", client_id := 99, supplier_id := 1, products := [],
    items_types := [], is_complete := false }

/-- Counterexample to C4 as stated: in the concrete scenario order 2 exists
and `c4Payload.client_id = 99` resolves to no client, yet `update_order`
returns `InvalidPayload` (the empty title fails validation first), not
`NotFound`. -/
theorem claim_C4_counterexample :
    storeGet wState.clients 99 = none ∧
    update_order 2 c4Payload 20 wState =
      some (Except.error
        (Error.InvalidPayload "validation of the payload failed"), wState) ∧
    ∀ m s', update_order 2 c4Payload 20 wState ≠
      some (Except.error (Error.NotFound m), s') := by
  refine ⟨by decide, rfl, ?_⟩
  intro m s' hcontra
  have h2 : some (Except.error
      (Error.InvalidPayload "validation of the payload failed"), wState) =
      some (Except.error (Error.NotFound m), s') := hcontra
  simp at h2

/-- Claim C4 (amended): provided the order exists and the payload passes
validation, `update_order` returns `NotFound` with the state unchanged
whenever the payload's client or supplier does not resolve; and whenever it
returns `Ok`, the stored order carries the payload's title, client, supplier,
item types and products, keeps the pre-existing order's `id`, `created_at`
and `is_complete`, and has `updated_at` set. -/
theorem claim_C4 (s : State) (id now : Nat) (p : OrderPayload) (o : Order)
    (ho : storeGet s.orders id = some o) (hv : p.validate = true) :
    (storeGet s.clients p.client_id = none →
      ∃ m, update_order id p now s =
        some (Except.error (Error.NotFound m), s)) ∧
    (∀ c, storeGet s.clients p.client_id = some c →
      storeGet s.suppliers p.supplier_id = none →
      ∃ m, update_order id p now s =
        some (Except.error (Error.NotFound m), s)) ∧
    (∀ o' s', update_order id p now s = some (Except.ok o', s') →
      o'.title = p.title ∧ o'.client_id = p.client_id ∧
      o'.supplier_id = some p.supplier_id ∧ o'.item_types = p.items_types ∧
      o'.products = p.products ∧ o'.id = o.id ∧
      o'.created_at = o.created_at ∧ o'.is_complete = o.is_complete ∧
      o'.updated_at = some now ∧ storeGet s'.orders o'.id = some o') := by
  refine ⟨?_, ?_, ?_⟩
  · intro hc
    exact ⟨_, update_order_no_client now ho hv hc⟩
  · intro c hc hsp
    exact ⟨_, update_order_no_supplier now ho hv hc hsp⟩
  · intro o' s' hok
    obtain ⟨o2, ho2, _, _, _, ho', hs'⟩ := update_order_ok_inversion hok
    have heq : o = o2 := Option.some.inj (ho.symm.trans ho2)
    subst heq
    subst ho'
    subst hs'
    exact ⟨rfl, rfl, rfl, rfl, rfl, rfl, rfl, rfl, rfl,
      storeGet_insert_self s.orders o.id _⟩

/-- A valid payload whose client id 99 resolves to nothing. -/
def c4Good : OrderPayload :=
  { title := "x", client_id := 99, supplier_id := 1, products := [],
    items_types := [], is_complete := false }

/-- Witness for the amended C4: updating order 2 of the concrete scenario
with a valid payload referencing the nonexistent client 99 yields `NotFound`
and leaves the state unchanged. -/
theorem claim_C4_witness :
    ∃ m, update_order 2 c4Good 20 wState =
      some (Except.error (Error.NotFound m), wState) :=
  (claim_C4 wState 2 20 c4Good wOrder rfl rfl).1 rfl

/-- Claim C10: every successful `update_order` stores the order with
`supplier_id = some payload.supplier_id` where that supplier exists, so an
update can never leave or return an order in the no-supplier (Draft)
state. -/
theorem claim_C10 (s : State) (id now : Nat) (p : OrderPayload) (o' : Order)
    (s' : State) (h : update_order id p now s = some (Except.ok o', s')) :
    o'.supplier_id = some p.supplier_id ∧ o'.supplier_id ≠ none ∧
    (∃ sp, storeGet s.suppliers p.supplier_id = some sp) ∧
    storeGet s'.orders o'.id = some o' := by
  obtain ⟨o, ho, hv, hc, hsp, ho', hs'⟩ := update_order_ok_inversion h
  subst ho'
  subst hs'
  exact ⟨rfl, by simp, hsp, storeGet_insert_self s.orders o.id _⟩

/-- Payload and results for the C10 witness: updating the draft-free order 2
with a payload naming supplier 1. -/
def c10Payload : OrderPayload :=
  { title := "updated", client_id := 0, supplier_id := 1,
    products := [("nuts", 2)], items_types := ["nuts"], is_complete := true }

def c10Order : Order :=
  { id := 2, title := "updated", client_id := 0, supplier_id := some 1,
    item_types := ["nuts"], products := [("nuts", 2)], is_complete := false,
    created_at := 12, updated_at := some 21 }

def c10State : State :=
  { counter := 3, clients := wState.clients, suppliers := wState.suppliers,
    orders := storeInsert wState.orders 2 c10Order }

/-- Witness for C10: the concrete successful update stores supplier 1 on the
order. -/
theorem claim_C10_witness :
    c10Order.supplier_id = some c10Payload.supplier_id ∧
    c10Order.supplier_id ≠ none ∧
    (∃ sp, storeGet wState.suppliers c10Payload.supplier_id = some sp) ∧
    storeGet c10State.orders c10Order.id = some c10Order :=
  claim_C10 wState 2 21 c10Payload c10Order c10State rfl

/-! ### Id assignment facts for C5 -/

theorem opRet_eq_counter {op : Op} {s : State} {i : Nat}
    (h : opRet op s = some i) :
    i = s.counter ∧ (applyOp op s).counter = s.counter + 1 := by
  cases op with
  | addClientOp p now =>
      by_cases hv : p.validate = false
      · simp [opRet, add_client, hv] at h
      · simp [opRet, add_client, hv] at h
        simp [applyOp, add_client, hv, h.symm]
  | addSupplierOp p now =>
      by_cases hv : p.validate = false
      · simp [opRet, add_supplier, hv] at h
      · simp [opRet, add_supplier, hv] at h
        simp [applyOp, add_supplier, hv, h.symm]
  | addOrderOp p now =>
      by_cases hv : p.validate = false
      · simp [opRet, add_order, hv] at h
      · by_cases hcv : is_client_id_valid s p.client_id = false
        · simp [opRet, add_order, hv, hcv] at h
        · simp [opRet, add_order, hv, hcv] at h
          simp [applyOp, add_order, hv, hcv, h.symm]
  | addOrderSupplierOp p now => simp [opRet] at h
  | completeOrderOp id now => simp [opRet] at h
  | updateOrderOp id p now => simp [opRet] at h
  | deleteOrderOp id => simp [opRet] at h

theorem counter_mono (op : Op) (s : State) :
    s.counter ≤ (applyOp op s).counter := by
  cases op with
  | addClientOp p now =>
      by_cases hv : p.validate = false
      · simp [applyOp, add_client, hv]
      · simp [applyOp, add_client, hv]
  | addSupplierOp p now =>
      by_cases hv : p.validate = false
      · simp [applyOp, add_supplier, hv]
      · simp [applyOp, add_supplier, hv]
  | addOrderOp p now =>
      by_cases hv : p.validate = false
      · simp [applyOp, add_order, hv]
      · by_cases hcv : is_client_id_valid s p.client_id = false
        · simp [applyOp, add_order, hv, hcv]
        · simp [applyOp, add_order, hv, hcv]
  | addOrderSupplierOp p now =>
      rcases hget : storeGet s.orders p.order_id with _ | order
      · simp [applyOp, add_order_supplier, hget]
      · by_cases hsv : is_supplier_id_valid s p.supplier_id = false
        · simp [applyOp, add_order_supplier, hget, hsv]
        · simp [applyOp, add_order_supplier, hget, hsv]
  | completeOrderOp id now =>
      simp only [applyOp]
      rcases hco : complete_order id now s with _ | r
      · exact le_refl _
      · show s.counter ≤ r.2.counter
        rcases complete_order_inversion hco with hs |
          ⟨o, c, sid, sp, _, _, _, _, _, hr⟩
        · rw [hs]
        · rw [hr]
  | updateOrderOp id p now =>
      rcases hget : storeGet s.orders id with _ | order
      · simp [applyOp, update_order, hget]
      · by_cases hv : p.validate = false
        · simp [applyOp, update_order, hget, hv]
        · by_cases hcv : is_client_id_valid s p.client_id = false
          · simp [applyOp, update_order, hget, hv, hcv]
          · by_cases hsv : is_supplier_id_valid s p.supplier_id = false
            · simp [applyOp, update_order, hget, hv, hcv, hsv]
            · simp [applyOp, update_order, hget, hv, hcv, hsv]
  | deleteOrderOp id =>
      rcases hget : storeGet s.orders id with _ | order
      · simp [applyOp, delete_order, hget]
      · simp [applyOp, delete_order, hget]

theorem runIds_bound_chain (ops : List Op) (s : State) :
    (∀ i ∈ runIds s ops, s.counter ≤ i) ∧
      List.Chain' (· < ·) (runIds s ops) := by
  induction ops generalizing s with
  | nil => exact ⟨fun i h => absurd h (List.not_mem_nil i), List.chain'_nil⟩
  | cons op rest ih =>
      rcases hret : opRet op s with _ | i
      · have hrec := ih (applyOp op s)
        constructor
        · intro j hj
          rw [runIds, hret] at hj
          exact le_trans (counter_mono op s) (hrec.1 j hj)
        · rw [runIds, hret]
          exact hrec.2
      · obtain ⟨hi, hctr⟩ := opRet_eq_counter hret
        have hrec := ih (applyOp op s)
        have htail : ∀ j ∈ runIds (applyOp op s) rest, s.counter + 1 ≤ j := by
          intro j hj
          have := hrec.1 j hj
          rw [hctr] at this
          exact this
        constructor
        · intro j hj
          rw [runIds, hret] at hj
          rcases List.mem_cons.mp hj with rfl | hj'
          · rw [hi]
          · exact le_trans (Nat.le_succ _) (htail j hj')
        · rw [runIds, hret]
          rw [List.chain'_cons']
          constructor
          · intro b hb
            have hbmem : b ∈ runIds (applyOp op s) rest :=
              List.mem_of_mem_head? hb
            have := htail b hbmem
            rw [hi]
            omega
          · exact hrec.2

/-- Claim C5: in every run of public operations from the initial state, each
successful `add_client` / `add_supplier` / `add_order` returns the counter's
pre-increment value and bumps the counter by one, and the ids assigned
across all three kinds are strictly increasing in call order — hence
pairwise distinct and never reassigned, even after deletions. -/
theorem claim_C5 (ops : List Op) (op : Op) (s : State) (i : Nat)
    (h : opRet op s = some i) :
    List.Chain' (· < ·) (runIds initState ops) ∧
    List.Pairwise (· ≠ ·) (runIds initState ops) ∧
    i = s.counter ∧ (applyOp op s).counter = s.counter + 1 := by
  have hchain := (runIds_bound_chain ops initState).2
  have hpair : List.Pairwise (· < ·) (runIds initState ops) :=
    (List.chain'_iff_pairwise).mp hchain
  exact ⟨hchain, hpair.imp Nat.ne_of_lt, (opRet_eq_counter h).1,
    (opRet_eq_counter h).2⟩

/-- Witness for C5: the concrete scenario's run assigns ids 0, 1, 2 in
order, and its first operation returns the initial counter value 0. -/
theorem claim_C5_witness :
    List.Chain' (· < ·) (runIds initState wOps) ∧
    List.Pairwise (· ≠ ·) (runIds initState wOps) ∧
    0 = initState.counter ∧
    (applyOp (Op.addClientOp wClientPayload 10) initState).counter =
      initState.counter + 1 :=
  claim_C5 wOps (Op.addClientOp wClientPayload 10) initState 0 (by decide)

/-! ### Validation claims -/

theorem clientPayload_validate_false {p : ClientPayload}
    (h : p.name.length < 3 ∨ p.phone.length < 7 ∨ 15 < p.phone.length) :
    p.validate = false := by
  simp only [ClientPayload.validate, Bool.and_eq_false_iff,
    decide_eq_false_iff_not, not_le]
  omega

theorem supplierPayload_validate_false {p : SupplierPayload}
    (h : p.name.length < 3 ∨ p.phone.length < 7 ∨ 15 < p.phone.length) :
    p.validate = false := by
  simp only [SupplierPayload.validate, Bool.and_eq_false_iff,
    decide_eq_false_iff_not, not_le]
  omega

theorem orderPayload_validate_false {p : OrderPayload} (h : p.title = "") :
    p.validate = false := by
  simp [OrderPayload.validate, h]

/-- Claim C6: a client or supplier payload whose name is shorter than 3 or
whose phone length is outside 7..15, and an order payload with an empty
title, are rejected with `InvalidPayload`, and the state — all three stores
and the id counter — is returned unchanged. -/
theorem claim_C6 (now : Nat) (s : State) (cp : ClientPayload)
    (sp : SupplierPayload) (op : OrderPayload)
    (hcp : cp.name.length < 3 ∨ cp.phone.length < 7 ∨ 15 < cp.phone.length)
    (hsp : sp.name.length < 3 ∨ sp.phone.length < 7 ∨ 15 < sp.phone.length)
    (hop : op.title = "") :
    add_client cp now s =
      (Except.error
        (Error.InvalidPayload "validation of the payload failed"), s) ∧
    add_supplier sp now s =
      (Except.error
        (Error.InvalidPayload "validation of the payload failed"), s) ∧
    add_order op now s =
      (Except.error
        (Error.InvalidPayload "validation of the payload failed"), s) := by
  refine ⟨?_, ?_, ?_⟩
  · simp [add_client, clientPayload_validate_false hcp]
  · simp [add_supplier, supplierPayload_validate_false hsp]
  · simp [add_order, orderPayload_validate_false hop]

def c6ClientBad : ClientPayload :=
  { name := "ab", email := "ab@mail.co", phone := "5551234" }

def c6SupplierBad : SupplierPayload :=
  { name := "Bolt", email := "b@mail.co", phone := "123",
    prefered_items := [] }

def c6OrderBad : OrderPayload :=
  { title := "", client_id := 0, supplier_id := 0, products := [],
    items_types := [], is_complete := false }

/-- Witness for C6: a two-character name, a three-digit phone and an empty
title are each rejected on the initial state with no side effect. -/
theorem claim_C6_witness :
    add_client c6ClientBad 0 initState =
      (Except.error
        (Error.InvalidPayload "validation of the payload failed"), initState) ∧
    add_supplier c6SupplierBad 0 initState =
      (Except.error
        (Error.InvalidPayload "validation of the payload failed"), initState) ∧
    add_order c6OrderBad 0 initState =
      (Except.error
        (Error.InvalidPayload "validation of the payload failed"), initState) :=
  claim_C6 0 initState c6ClientBad c6SupplierBad c6OrderBad
    (Or.inl (by decide)) (Or.inr (Or.inl (by decide))) rfl

theorem add_order_ok {s : State} {p : OrderPayload} (now : Nat) {c : Client}
    (hv : p.validate = true)
    (hc : storeGet s.clients p.client_id = some c) :
    add_order p now s =
      (Except.ok
        { id := s.counter, title := p.title, client_id := p.client_id,
          supplier_id := none, item_types := p.items_types,
          products := p.products, is_complete := false, created_at := now,
          updated_at := none },
       { counter := s.counter + 1, clients := s.clients,
         suppliers := s.suppliers,
         orders := storeInsert s.orders s.counter
           { id := s.counter, title := p.title, client_id := p.client_id,
             supplier_id := none, item_types := p.items_types,
             products := p.products, is_complete := false,
             created_at := now, updated_at := none } }) := by
  simp [add_order, hv, is_client_id_valid, hc]

/-- Claim C7: with a valid payload, `add_order` succeeds exactly when the
payload's client resolves, persisting a fresh order with
`supplier_id = none`, `is_complete = false` and `updated_at = none`
(whatever the payload's `supplier_id` and `is_complete` said), touching no
other store; when the client does not resolve it returns `NotFound` and the
whole state is unchanged. -/
theorem claim_C7 (p : OrderPayload) (now : Nat) (s : State)
    (hv : p.validate = true) :
    (∀ c, storeGet s.clients p.client_id = some c →
      ∃ o s', add_order p now s = (Except.ok o, s') ∧
        o.supplier_id = none ∧ o.is_complete = false ∧ o.updated_at = none ∧
        storeGet s'.orders o.id = some o ∧ s'.clients = s.clients ∧
        s'.suppliers = s.suppliers ∧ s'.counter = s.counter + 1) ∧
    (storeGet s.clients p.client_id = none →
      ∃ m, add_order p now s = (Except.error (Error.NotFound m), s)) := by
  constructor
  · intro c hc
    exact ⟨_, _, add_order_ok now hv hc, rfl, rfl, rfl,
      storeGet_insert_self s.orders s.counter _, rfl, rfl, rfl⟩
  · intro hc
    refine ⟨"Client with id=" ++ toString p.client_id ++ " not found.", ?_⟩
    simp [add_order, hv, is_client_id_valid, hc]

/-- Witness for C7: adding the scenario's order payload again on `wState`
succeeds with a draft (no supplier, incomplete) order. -/
theorem claim_C7_witness :
    ∃ o s', add_order wOrderPayload 16 wState = (Except.ok o, s') ∧
      o.supplier_id = none ∧ o.is_complete = false ∧ o.updated_at = none ∧
      storeGet s'.orders o.id = some o ∧ s'.clients = wState.clients ∧
      s'.suppliers = wState.suppliers ∧ s'.counter = wState.counter + 1 :=
  (claim_C7 wOrderPayload 16 wState rfl).1 wClient (by decide)

/-- Claim C9: `add_order_supplier` checks no completion state: for every
existing order — including a completed one — and every resolving supplier
id, it returns `Ok` and overwrites the order's `supplier_id`, leaving the
Supplier store (hence the previously credited supplier's `order_ids`)
untouched. -/
theorem claim_C9 (p : AddOrderSupplierPayload) (now : Nat) (s : State)
    (o : Order) (ho : storeGet s.orders p.order_id = some o)
    (sp : Supplier) (hsp : storeGet s.suppliers p.supplier_id = some sp) :
    add_order_supplier p now s =
      (Except.ok
        { o with supplier_id := some p.supplier_id, updated_at := some now },
       { counter := s.counter, clients := s.clients,
         suppliers := s.suppliers,
         orders := storeInsert s.orders o.id
           { o with supplier_id := some p.supplier_id,
                    updated_at := some now } }) := by
  simp [add_order_supplier, ho, is_supplier_id_valid, hsp]

def c9SupplierPayload : SupplierPayload :=
  { name := "Nut Supply", email := "nuts@mail.co", phone := "5559876",
    prefered_items := ["nuts"] }

/-- The completed scenario extended with a second supplier (id 3). -/
def c9State : State :=
  runState initState
    (wOps ++ [Op.completeOrderOp 2 14, Op.addSupplierOp c9SupplierPayload 15])

def c9Supplier : Supplier :=
  { id := 3, name := "Nut Supply", email := "nuts@mail.co",
    phone := "5559876", prefered_items := ["nuts"], order_ids := [],
    created_at := 15, updated_at := none }

/-- Witness for C9: reassigning the already-completed order 2 from supplier
1 to supplier 3 succeeds, while supplier 1 still lists order 2. -/
theorem claim_C9_witness :
    add_order_supplier { order_id := 2, supplier_id := 3 } 16 c9State =
      (Except.ok
        { cOrder with supplier_id := some 3, updated_at := some 16 },
       { counter := c9State.counter, clients := c9State.clients,
         suppliers := c9State.suppliers,
         orders := storeInsert c9State.orders cOrder.id
           { cOrder with supplier_id := some 3,
                         updated_at := some 16 } }) ∧
    cOrder.is_complete = true :=
  ⟨claim_C9 { order_id := 2, supplier_id := 3 } 16 c9State cOrder (by decide)
    c9Supplier (by decide), rfl⟩

/-! ### Filter criteria (spec-modelled) -/

/-- Filter criteria for `filter_orders_by_criteria`; every field is
optional. -/
structure FilterCriteria where
  date_range : Option (Nat × Nat)
  is_complete : Option Bool
  client_id : Option Nat
  supplier_id : Option Nat
  product_key : Option String
deriving Repr, DecidableEq

/-- Modelled from the spec: `filter_orders_by_criteria` is not present in
the provided source tree.  Per the spec's Query Layer it is a conjunctive
filter over optional predicates — a date range on `created_at`, exact
`is_complete`, exact `client_id`, exact `supplier_id`, and "has a product
key equal to X" — where absent criteria are wildcards. -/
def matchesCriteria (cr : FilterCriteria) (o : Order) : Bool :=
  (match cr.date_range with
   | none => true
   | some (lo, hi) =>
       decide (lo ≤ o.created_at) && decide (o.created_at ≤ hi)) &&
  (match cr.is_complete with
   | none => true
   | some b => o.is_complete == b) &&
  (match cr.client_id with
   | none => true
   | some cid => o.client_id == cid) &&
  (match cr.supplier_id with
   | none => true
   | some sid => o.supplier_id == some sid) &&
  (match cr.product_key with
   | none => true
   | some k => decide (k ∈ o.products.map Prod.fst))

/-- Modelled from the spec: scan the Order store, keep the orders matching
all present criteria, and return `NotFound` when no order matches (the
spec's "no results return `NotFound`" rule). -/
def filter_orders_by_criteria (cr : FilterCriteria) (s : State) :
    Except Error (List Order) :=
  let matching := (s.orders.map (fun kv => kv.2)).filter (matchesCriteria cr)
  if matching.isEmpty then
    Except.error (Error.NotFound "No orders match the filter criteria.")
  else
    Except.ok matching

/-- Claim C8: `filter_orders_by_criteria` treats absent criteria as
wildcards and conjoins the present ones; with all fields unset it returns
every order of the Order store, and when no order satisfies the conjunction
it returns `NotFound`. -/
theorem claim_C8 (cr : FilterCriteria) (s : State) :
    (∀ o, matchesCriteria cr o = true ↔
      ((∀ lo hi, cr.date_range = some (lo, hi) →
          lo ≤ o.created_at ∧ o.created_at ≤ hi) ∧
       (∀ b, cr.is_complete = some b → o.is_complete = b) ∧
       (∀ cid, cr.client_id = some cid → o.client_id = cid) ∧
       (∀ sid, cr.supplier_id = some sid → o.supplier_id = some sid) ∧
       (∀ k, cr.product_key = some k → k ∈ o.products.map Prod.fst))) ∧
    (cr.date_range = none → cr.is_complete = none → cr.client_id = none →
      cr.supplier_id = none → cr.product_key = none →
      s.orders.map (fun kv => kv.2) ≠ [] →
      filter_orders_by_criteria cr s =
        Except.ok (s.orders.map (fun kv => kv.2))) ∧
    ((∀ o ∈ s.orders.map (fun kv => kv.2), matchesCriteria cr o = false) →
      ∃ m, filter_orders_by_criteria cr s =
        Except.error (Error.NotFound m)) := by
  refine ⟨?_, ?_, ?_⟩
  · intro o
    obtain ⟨dr, ic, ci, si, pk⟩ := cr
    rcases dr with _ | ⟨lo, hi⟩ <;> rcases ic with _ | b <;>
      rcases ci with _ | cid <;> rcases si with _ | sid <;>
      rcases pk with _ | k <;>
      simp [matchesCriteria, and_assoc]
  · intro h1 h2 h3 h4 h5 hne
    have hfilter :
        (s.orders.map (fun kv => kv.2)).filter (matchesCriteria cr) =
          s.orders.map (fun kv => kv.2) :=
      List.filter_eq_self.mpr
        (fun a _ => by simp [matchesCriteria, h1, h2, h3, h4, h5])
    have hempty : (s.orders.map (fun kv => kv.2)).isEmpty = false := by
      rcases hl : s.orders.map (fun kv => kv.2) with _ | ⟨a, l⟩
      · exact absurd hl hne
      · rw [hl]
        rfl
    simp [filter_orders_by_criteria, hfilter, hempty]
  · intro hnone
    refine ⟨"No orders match the filter criteria.", ?_⟩
    have hfilter :
        (s.orders.map (fun kv => kv.2)).filter (matchesCriteria cr) = [] :=
      List.filter_eq_nil_iff.mpr (fun a ha => by simp [hnone a ha])
    simp [filter_orders_by_criteria, hfilter]

def c8Unset : FilterCriteria :=
  { date_range := none, is_complete := none, client_id := none,
    supplier_id := none, product_key := none }

/-- Witness for C8: the all-unset criteria return every order of the
scenario's nonempty store. -/
theorem claim_C8_witness :
    filter_orders_by_criteria c8Unset wState =
      Except.ok (wState.orders.map (fun kv => kv.2)) :=
  (claim_C8 c8Unset wState).2.1 rfl rfl rfl rfl rfl (by decide)

end SupplyChain
